import Mathlib

/-!
Verification development for the `OrphanAccount` record-handle module
(src/lang/src/accounts/orphan.rs): a typed wrapper around a raw
externally-managed account buffer, with validated construction, reload,
ownership-gated write-back on exit, metadata export, and a delegated close.

The wrapper itself is embedded from the source. Three collaborators the
source calls are not among the given repository files and are modelled from
the spec, each marked `Modelled from the spec:` in its doc comment:
the structured codec (the AccountSerialize / AccountDeserialize contract),
the byte writer used by the exit hook (crate::bpf_writer::BpfWriter), and
the generic reclaim routine (crate::common::close).
-/

namespace OrphanSpec

/-- Public keys and trust-domain identities, modelled as naturals. -/
abbrev Pubkey := Nat

/-- The system program's id (the null authority `system_program::ID`). -/
def systemProgramId : Pubkey := 0

/-- Error codes produced by this module (anchor's `ErrorCode`, restricted to
the variants reachable from the embedded operations). -/
inductive Err where
  | accountNotInitialized
  | accountNotEnoughKeys
  | accountDiscriminatorNotFound
  | accountDiscriminatorMismatch
  | accountDidNotDeserialize
  | accountBorrowFailed
  | bufferTooSmall
  deriving DecidableEq, Repr

/-- A raw buffer (solana `AccountInfo`): identity, owner tag, balance, data
bytes, signer and mutability flags. The two borrow flags model the RefCell
state of the data cell: an outstanding shared borrow and an outstanding
exclusive borrow. Bytes are naturals. -/
structure AccountInfo where
  key : Pubkey
  owner : Pubkey
  lamports : Nat
  data : List Nat
  isSigner : Bool
  isWritable : Bool
  sharedBorrow : Bool
  mutBorrow : Bool
  deriving DecidableEq, Repr

/-- Models `try_borrow_data`: a shared borrow of the data bytes, which fails
while an exclusive borrow is outstanding. -/
def AccountInfo.tryBorrowData (info : AccountInfo) : Except Err (List Nat) :=
  if info.mutBorrow then .error .accountBorrowFailed else .ok info.data

/-- Models `try_borrow_mut_data`: an exclusive borrow of the data bytes, which
fails while any borrow is outstanding. -/
def AccountInfo.tryBorrowMutData (info : AccountInfo) : Except Err (List Nat) :=
  if info.mutBorrow || info.sharedBorrow then .error .accountBorrowFailed
  else .ok info.data

/-- Modelled from the spec: the structured codec a record type T must satisfy
(the `AccountSerialize` / `AccountDeserialize` derive) is not among the given
repository files. Per the spec the persisted layout is "tag + payload,
reversible": a leading type tag followed by the payload bytes, with a payload
parser that may reject malformed bytes. -/
structure TagCodec (T : Type) where
  tag : Nat
  encodePayload : T → List Nat
  decodePayload : List Nat → Option T

/-- The canonical byte encoding: the type tag followed by the payload. -/
def TagCodec.encode {T : Type} (c : TagCodec T) (v : T) : List Nat :=
  c.tag :: c.encodePayload v

/-- Models `try_deserialize` (strict decode): require the leading tag to be
present and equal to the expected tag, then parse the payload. -/
def TagCodec.tryDeserialize {T : Type} (c : TagCodec T) (bs : List Nat) :
    Except Err T :=
  match bs with
  | [] => .error .accountDiscriminatorNotFound
  | t :: rest =>
    if t = c.tag then
      match c.decodePayload rest with
      | some v => .ok v
      | none => .error .accountDidNotDeserialize
    else .error .accountDiscriminatorMismatch

/-- Models `try_deserialize_unchecked` (permissive decode): skip the leading
tag without validating it and parse the remaining payload. -/
def TagCodec.tryDeserializeUnchecked {T : Type} (c : TagCodec T)
    (bs : List Nat) : Except Err T :=
  match c.decodePayload (bs.drop 1) with
  | some v => .ok v
  | none => .error .accountDidNotDeserialize

/-- Modelled from the spec: the byte writer used by the exit hook
(crate::bpf_writer::BpfWriter) is not among the given repository files. Per
the spec, write-back overwrites the buffer's bytes in place and fails with
BufferTooSmall when the region cannot accommodate the encoding; bytes past
the written length are left unchanged. -/
def writeBack (dst enc : List Nat) : Except Err (List Nat) :=
  if enc.length ≤ dst.length then .ok (enc ++ dst.drop enc.length)
  else .error .bufferTooSmall

/-- Modelled from the spec: the generic buffer-reclaim routine
(crate::common::close) is not among the given repository files. Per the spec
it "zeroes and reclassifies buffers": the balance moves to the destination,
the buffer is reassigned to the null authority and its bytes are reclaimed.
Returns (buffer after, destination after). -/
def commonClose (info dest : AccountInfo) : Except Err (AccountInfo × AccountInfo) :=
  .ok ({ info with lamports := 0, owner := systemProgramId, data := [] },
       { dest with lamports := dest.lamports + info.lamports })

/-- The record handle `OrphanAccount<T>`: one decoded in-memory value bound to
the raw buffer it was read from. -/
structure OrphanAccount (T : Type) where
  account : T
  info : AccountInfo
  deriving DecidableEq, Repr

/-- Embeds `OrphanAccount::new`. -/
def OrphanAccount.new {T : Type} (info : AccountInfo) (account : T) :
    OrphanAccount T :=
  { info := info, account := account }

/-- Embeds `OrphanAccount::try_from` (validated construction): reject a
never-initialized buffer (null-authority owner and zero balance), then borrow
the bytes and strict-decode them; errors propagate. -/
def OrphanAccount.tryFrom {T : Type} (c : TagCodec T) (info : AccountInfo) :
    Except Err (OrphanAccount T) :=
  if info.owner = systemProgramId ∧ info.lamports = 0 then
    .error .accountNotInitialized
  else
    match info.tryBorrowData with
    | .error e => .error e
    | .ok data =>
      match c.tryDeserialize data with
      | .error e => .error e
      | .ok v => .ok (OrphanAccount.new info v)

/-- Embeds `OrphanAccount::try_from_unchecked`: identical to `tryFrom` but
decodes permissively, skipping the tag check. -/
def OrphanAccount.tryFromUnchecked {T : Type} (c : TagCodec T)
    (info : AccountInfo) : Except Err (OrphanAccount T) :=
  if info.owner = systemProgramId ∧ info.lamports = 0 then
    .error .accountNotInitialized
  else
    match info.tryBorrowData with
    | .error e => .error e
    | .ok data =>
      match c.tryDeserializeUnchecked data with
      | .error e => .error e
      | .ok v => .ok (OrphanAccount.new info v)

/-- Embeds `OrphanAccount::reload`: re-borrow the current bytes and
strict-decode; only on success is the in-memory value replaced. The result
pair is (returned result, the handle after the call), reflecting the in-place
mutation of self. -/
def OrphanAccount.reload {T : Type} (c : TagCodec T) (a : OrphanAccount T) :
    Except Err Unit × OrphanAccount T :=
  match a.info.tryBorrowData with
  | .error e => (.error e, a)
  | .ok data =>
    match c.tryDeserialize data with
    | .error e => (.error e, a)
    | .ok v => (.ok (), { a with account := v })

/-- Embeds `OrphanAccount::into_inner`. -/
def OrphanAccount.intoInner {T : Type} (a : OrphanAccount T) : T :=
  a.account

/-- Embeds `OrphanAccount::set_inner`. -/
def OrphanAccount.setInner {T : Type} (a : OrphanAccount T) (inner : T) :
    OrphanAccount T :=
  { a with account := inner }

/-- Embeds `Accounts::try_accounts`: fail when the list is empty, otherwise
construct from the first buffer via `tryFrom` and leave the rest to the
caller. The program id and instruction data parameters are present but
unused, as in the source (`_program_id`, `_ix_data`). -/
def OrphanAccount.tryAccounts {T : Type} (c : TagCodec T) (programId : Pubkey)
    (accounts : List AccountInfo) (ixData : List Nat) :
    Except Err (OrphanAccount T × List AccountInfo) :=
  match accounts with
  | [] => .error .accountNotEnoughKeys
  | account :: rest =>
    match OrphanAccount.tryFrom c account with
    | .error e => .error e
    | .ok acc => .ok (acc, rest)

/-- Embeds `AccountsExit::exit`: only persist if the owner is the current
program; in that case borrow the data exclusively and serialize the in-memory
value into it through the writer. Returns the buffer after the call. -/
def OrphanAccount.exit {T : Type} (c : TagCodec T) (a : OrphanAccount T)
    (programId : Pubkey) : Except Err AccountInfo :=
  if a.info.owner = programId then
    match a.info.tryBorrowMutData with
    | .error e => .error e
    | .ok dst =>
      match writeBack dst (c.encode a.account) with
      | .error e => .error e
      | .ok newData => .ok { a.info with data := newData }
  else .ok a.info

/-- Embeds `AccountsClose::close`: delegates to the generic reclaim routine
`crate::common::close` on the handle's buffer and the given destination. -/
def OrphanAccount.close {T : Type} (a : OrphanAccount T)
    (solDestination : AccountInfo) : Except Err (AccountInfo × AccountInfo) :=
  commonClose a.info solDestination

/-- Embeds `DerefMut::deref_mut`, applying a mutation through the obtained
exclusive reference. With the anchor-debug feature enabled the source panics
(modelled as `none`) when the buffer is not writable; otherwise the mutable
reference is handed out unconditionally. -/
def OrphanAccount.derefMutApply {T : Type} (debugBuild : Bool)
    (a : OrphanAccount T) (f : T → T) : Option (OrphanAccount T) :=
  if debugBuild && !a.info.isWritable then none
  else some { a with account := f a.account }

/-- A dispatch-list descriptor (solana `AccountMeta`). -/
structure AccountMeta where
  pubkey : Pubkey
  isSigner : Bool
  isWritable : Bool
  deriving DecidableEq, Repr

/-- Embeds `AccountMeta::new`: a writable descriptor. -/
def AccountMeta.new (pubkey : Pubkey) (isSigner : Bool) : AccountMeta :=
  { pubkey := pubkey, isSigner := isSigner, isWritable := true }

/-- Embeds `AccountMeta::new_readonly`. -/
def AccountMeta.newReadonly (pubkey : Pubkey) (isSigner : Bool) : AccountMeta :=
  { pubkey := pubkey, isSigner := isSigner, isWritable := false }

/-- Embeds `ToAccountMetas::to_account_metas`: one descriptor, writable per
the buffer's flag, signer per the override when given, the buffer's flag
otherwise. -/
def OrphanAccount.toAccountMetas {T : Type} (a : OrphanAccount T)
    (isSignerArg : Option Bool) : List AccountMeta :=
  let s := isSignerArg.getD a.info.isSigner
  match a.info.isWritable with
  | false => [AccountMeta.newReadonly a.info.key s]
  | true => [AccountMeta.new a.info.key s]

/-- A concrete record type used by witnesses and counterexamples. -/
structure MyRecord where
  balance : Nat
  deriving DecidableEq, Repr

/-- A concrete codec instance for `MyRecord`: tag 7, the payload is the
balance as a single byte; parsing rejects an empty payload and ignores
trailing bytes. -/
def myCodec : TagCodec MyRecord where
  tag := 7
  encodePayload r := [r.balance]
  decodePayload bs :=
    match bs with
    | b :: _ => some { balance := b }
    | [] => none

/-- A concrete live buffer owned by trust domain 5, holding the encoding of
balance 42 plus one trailing byte. -/
def bufA : AccountInfo :=
  { key := 11, owner := 5, lamports := 100, data := [7, 42, 0],
    isSigner := true, isWritable := true,
    sharedBorrow := false, mutBorrow := false }

/-- The decoded value stored in `bufA`. -/
def recA : MyRecord := { balance := 42 }

/-- A concrete destination buffer for close. -/
def destA : AccountInfo :=
  { key := 12, owner := 5, lamports := 10, data := [],
    isSigner := false, isWritable := true,
    sharedBorrow := false, mutBorrow := false }

/-- `bufA` with the mutability flag cleared. -/
def bufRO : AccountInfo := { bufA with isWritable := false }

/-- A concrete live buffer whose leading tag 9 does not match `myCodec`. -/
def bufBadTag : AccountInfo :=
  { key := 13, owner := 5, lamports := 100, data := [9, 42],
    isSigner := false, isWritable := true,
    sharedBorrow := false, mutBorrow := false }

/-- Helper: the strict decoder never reports NotInitialized; its errors are
the missing-tag, tag-mismatch and malformed-payload codes only. -/
theorem tryDeserialize_ne_notInit {T : Type} (c : TagCodec T) (bs : List Nat) :
    c.tryDeserialize bs ≠ .error .accountNotInitialized := by
  unfold TagCodec.tryDeserialize
  cases bs with
  | nil => simp
  | cons t rest =>
    by_cases h : t = c.tag
    · cases hp : c.decodePayload rest <;> simp [h, hp]
    · simp [h]

/-- Helper: the permissive decoder never reports NotInitialized. -/
theorem tryDeserializeUnchecked_ne_notInit {T : Type} (c : TagCodec T)
    (bs : List Nat) :
    c.tryDeserializeUnchecked bs ≠ .error .accountNotInitialized := by
  unfold TagCodec.tryDeserializeUnchecked
  cases hp : c.decodePayload (bs.drop 1) <;> simp [hp]

/-- Helper: an exit hook invoked with a trust domain other than the buffer's
owner returns success with the buffer unchanged. -/
theorem exit_of_owner_ne {T : Type} (c : TagCodec T) (a : OrphanAccount T)
    (pid : Pubkey) (h : a.info.owner ≠ pid) :
    OrphanAccount.exit c a pid = .ok a.info := by
  unfold OrphanAccount.exit
  simp [h]

/-- C1 counterexample: on a concrete handle over a live buffer owned by
domain 5, `close` does not fail: it succeeds and reclassifies the buffer to
the null authority with its bytes reclaimed and its balance moved. -/
theorem close_reclaims_cex :
    OrphanAccount.close (OrphanAccount.new bufA recA) destA =
      .ok ({ bufA with lamports := 0, owner := systemProgramId, data := [] },
           { destA with lamports := 110 }) ∧
    bufA.owner ≠ systemProgramId := by
  constructor
  · rfl
  · decide

/-- C1 amended: `close` is not rejected for this handle kind; it delegates to
the generic reclaim routine, which succeeds, moves the balance to the
destination and reclassifies the buffer (the prohibition in the source is
documentation only). -/
theorem close_delegates_to_reclaim (T : Type) (a : OrphanAccount T)
    (d : AccountInfo) :
    OrphanAccount.close a d = commonClose a.info d ∧
    OrphanAccount.close a d =
      .ok ({ a.info with lamports := 0, owner := systemProgramId, data := [] },
           { d with lamports := d.lamports + a.info.lamports }) :=
  ⟨rfl, rfl⟩

/-- C2 counterexample: in a non-debug build (the anchor-debug feature off),
obtaining mutable access through a handle over a non-writable buffer silently
succeeds: the mutation is applied and no failure of any kind is reported. -/
theorem derefMut_silent_success_cex :
    bufRO.isWritable = false ∧
    OrphanAccount.derefMutApply false (OrphanAccount.new bufRO recA)
        (fun r => { balance := r.balance + 1 }) =
      some (OrphanAccount.new bufRO { balance := 43 }) := by
  constructor
  · decide
  · rfl

/-- C2 amended: only when the anchor-debug feature is enabled does mutable
access through a non-writable handle fail loudly (panic); in any other build
configuration it silently succeeds, applying the mutation. -/
theorem derefMut_debug_only (T : Type) (a : OrphanAccount T) (f : T → T) :
    (a.info.isWritable = false →
      OrphanAccount.derefMutApply true a f = none) ∧
    OrphanAccount.derefMutApply false a f =
      some { a with account := f a.account } := by
  constructor
  · intro h
    simp [OrphanAccount.derefMutApply, h]
  · rfl

/-- C3: when the buffer's owner differs from the trust domain passed to the
exit hook, `exit` returns success and the buffer is byte-for-byte unchanged
(no write of any kind occurs). -/
theorem exit_nonowner_noop {T : Type} (c : TagCodec T) (a : OrphanAccount T)
    (pid : Pubkey) (h : a.info.owner ≠ pid) :
    OrphanAccount.exit c a pid = .ok a.info :=
  exit_of_owner_ne c a pid h

/-- C3 witness: the concrete handle over `bufA` (owner 5) exits under trust
domain 99 as a successful no-op. -/
theorem exit_nonowner_noop_witness :
    OrphanAccount.exit myCodec (OrphanAccount.new bufA recA) 99 = .ok bufA :=
  exit_nonowner_noop myCodec (OrphanAccount.new bufA recA) 99 (by decide)

/-- C9: `to_account_metas` returns exactly one descriptor whose identity is
the buffer's key, whose writable flag is the buffer's mutability flag, and
whose signer flag is the override when given and the buffer's signer flag
otherwise; the handle and buffer are untouched (the function is pure). -/
theorem to_account_metas_spec {T : Type} (a : OrphanAccount T)
    (ov : Option Bool) :
    OrphanAccount.toAccountMetas a ov =
      [{ pubkey := a.info.key, isSigner := ov.getD a.info.isSigner,
         isWritable := a.info.isWritable }] := by
  cases h : a.info.isWritable <;>
    simp [OrphanAccount.toAccountMetas, AccountMeta.new,
      AccountMeta.newReadonly, h]

/-- C4: when the buffer's owner equals the trust domain passed to the exit
hook, exiting after `set_inner` re-encodes the new value and overwrites the
buffer's bytes in place (bytes past the encoding untouched), and a strict
decode of the resulting bytes yields the mutated value. Hypotheses: the
buffer is unborrowed, the encoding fits the region, and the codec's payload
parsing inverts encoding up to trailing bytes. -/
theorem exit_writeback_fidelity {T : Type} (c : TagCodec T)
    (a : OrphanAccount T) (v : T) (pid : Pubkey)
    (hown : a.info.owner = pid)
    (hsb : a.info.sharedBorrow = false) (hmb : a.info.mutBorrow = false)
    (hfit : (c.encode v).length ≤ a.info.data.length)
    (hrt : ∀ extra, c.decodePayload (c.encodePayload v ++ extra) = some v) :
    OrphanAccount.exit c (OrphanAccount.setInner a v) pid =
      .ok { a.info with
              data := c.encode v ++ a.info.data.drop (c.encode v).length } ∧
    c.tryDeserialize (c.encode v ++ a.info.data.drop (c.encode v).length) =
      .ok v := by
  constructor
  · unfold OrphanAccount.exit OrphanAccount.setInner AccountInfo.tryBorrowMutData
      writeBack
    simp [hown, hsb, hmb, hfit]
  · have h1 : c.encode v ++ a.info.data.drop (c.encode v).length
        = c.tag :: (c.encodePayload v ++ a.info.data.drop (c.encode v).length) := by
      simp [TagCodec.encode]
    rw [h1]
    unfold TagCodec.tryDeserialize
    simp [hrt]

/-- C4 witness: mutating the handle over `bufA` to balance 150 and exiting
under the owning domain 5 rewrites the buffer to `[7, 150, 0]`, which strict-
decodes back to balance 150. -/
theorem exit_writeback_fidelity_witness :
    OrphanAccount.exit myCodec
        (OrphanAccount.setInner (OrphanAccount.new bufA recA)
          { balance := 150 }) 5 =
      .ok { bufA with
              data := myCodec.encode { balance := 150 } ++
                bufA.data.drop (myCodec.encode { balance := 150 }).length } ∧
    myCodec.tryDeserialize
        (myCodec.encode { balance := 150 } ++
          bufA.data.drop (myCodec.encode { balance := 150 }).length) =
      .ok { balance := 150 } :=
  exit_writeback_fidelity myCodec (OrphanAccount.new bufA recA)
    { balance := 150 } 5 rfl rfl rfl (by decide) (fun _ => rfl)

/-- C5: both constructors fail with NotInitialized exactly when the buffer's
owner is the null authority and its balance is zero; since the equivalence
holds for every data content and borrow state, the check precedes any borrow
or decoding. -/
theorem tryFrom_notInitialized {T : Type} (c : TagCodec T)
    (info : AccountInfo) :
    (OrphanAccount.tryFrom c info = .error .accountNotInitialized ↔
      info.owner = systemProgramId ∧ info.lamports = 0) ∧
    (OrphanAccount.tryFromUnchecked c info = .error .accountNotInitialized ↔
      info.owner = systemProgramId ∧ info.lamports = 0) := by
  constructor
  · unfold OrphanAccount.tryFrom AccountInfo.tryBorrowData
    split
    · next h => simpa using h
    · next h =>
      simp only [iff_false_intro h, iff_false]
      cases hmb : info.mutBorrow with
      | true => simp
      | false =>
        simp only [Bool.false_eq_true, if_false]
        cases hd : c.tryDeserialize info.data with
        | error e =>
          have := tryDeserialize_ne_notInit c info.data
          rw [hd] at this
          simp [hd]
          intro he
          exact this (by rw [he])
        | ok v => simp [hd]
  · unfold OrphanAccount.tryFromUnchecked AccountInfo.tryBorrowData
    split
    · next h => simpa using h
    · next h =>
      simp only [iff_false_intro h, iff_false]
      cases hmb : info.mutBorrow with
      | true => simp
      | false =>
        simp only [Bool.false_eq_true, if_false]
        cases hd : c.tryDeserializeUnchecked info.data with
        | error e =>
          have := tryDeserializeUnchecked_ne_notInit c info.data
          rw [hd] at this
          simp [hd]
          intro he
          exact this (by rw [he])
        | ok v => simp [hd]

/-- C6: on a live, borrowable buffer whose leading tag differs from the
codec's expected tag, validated construction fails with the tag-mismatch
error, while unchecked construction succeeds whenever the remaining payload
parses, returning a handle over the unchanged buffer; neither constructor
returns a modified buffer. -/
theorem tag_mismatch_constructors {T : Type} (c : TagCodec T)
    (info : AccountInfo) (t : Nat) (rest : List Nat) (v : T)
    (hlive : ¬(info.owner = systemProgramId ∧ info.lamports = 0))
    (hmb : info.mutBorrow = false)
    (hdata : info.data = t :: rest)
    (htag : t ≠ c.tag)
    (hparse : c.decodePayload rest = some v) :
    OrphanAccount.tryFrom c info = .error .accountDiscriminatorMismatch ∧
    OrphanAccount.tryFromUnchecked c info = .ok (OrphanAccount.new info v) := by
  constructor
  · unfold OrphanAccount.tryFrom AccountInfo.tryBorrowData
    rw [if_neg hlive]
    simp only [hmb, Bool.false_eq_true, if_false]
    rw [hdata]
    unfold TagCodec.tryDeserialize
    simp [htag]
  · unfold OrphanAccount.tryFromUnchecked AccountInfo.tryBorrowData
    rw [if_neg hlive]
    simp only [hmb, Bool.false_eq_true, if_false]
    rw [hdata]
    unfold TagCodec.tryDeserializeUnchecked
    simp [hparse]

/-- C6 witness: on `bufBadTag` (live, tag 9 against expected tag 7, payload
parsing to balance 42) validated construction reports the mismatch and
unchecked construction succeeds over the unchanged buffer. -/
theorem tag_mismatch_constructors_witness :
    OrphanAccount.tryFrom myCodec bufBadTag =
      .error .accountDiscriminatorMismatch ∧
    OrphanAccount.tryFromUnchecked myCodec bufBadTag =
      .ok (OrphanAccount.new bufBadTag { balance := 42 }) :=
  tag_mismatch_constructors myCodec bufBadTag 9 [42] { balance := 42 }
    (by decide) rfl rfl (by decide) rfl

/-- C7: `reload` commits atomically. Whenever it returns an error (borrow
failure or decode failure), the handle afterwards is exactly the handle
before; whenever it succeeds, the buffer reference is unchanged and the
in-memory value equals the strict decode of the current buffer bytes. -/
theorem reload_atomic {T : Type} (c : TagCodec T) (a : OrphanAccount T) :
    (∀ e, (OrphanAccount.reload c a).fst = .error e →
      (OrphanAccount.reload c a).snd = a) ∧
    ((OrphanAccount.reload c a).fst = .ok () →
      (OrphanAccount.reload c a).snd.info = a.info ∧
      c.tryDeserialize a.info.data =
        .ok (OrphanAccount.reload c a).snd.account) := by
  unfold OrphanAccount.reload AccountInfo.tryBorrowData
  cases hmb : a.info.mutBorrow with
  | true => simp
  | false =>
    simp only [Bool.false_eq_true, if_false]
    cases hd : c.tryDeserialize a.info.data with
    | error e => simp
    | ok v => simp [hd]

/-- C8: `try_accounts` fails with NotEnoughKeys on the empty list; on a
nonempty list it constructs the handle from the first buffer via validated
construction and hands the tail back to the caller, errors propagating. -/
theorem try_accounts_consumes_first {T : Type} (c : TagCodec T) (pid : Pubkey)
    (ix : List Nat) :
    OrphanAccount.tryAccounts c pid ([] : List AccountInfo) ix =
      .error .accountNotEnoughKeys ∧
    ∀ (account : AccountInfo) (rest : List AccountInfo),
      OrphanAccount.tryAccounts c pid (account :: rest) ix =
        Except.map (fun acc => (acc, rest)) (OrphanAccount.tryFrom c account) := by
  constructor
  · rfl
  · intro account rest
    cases h : OrphanAccount.tryFrom c account <;>
      simp [OrphanAccount.tryAccounts, Except.map, h]

/-- C10: construction checks no ownership against the current program: on a
live, borrowable buffer whose bytes strict-decode, validated construction
succeeds whatever the owner tag; the program id passed to `try_accounts` is
ignored entirely; and when the owner differs from the domain later given to
the exit hook, write-back is skipped. -/
theorem no_ownership_check_on_construction {T : Type} (c : TagCodec T)
    (info : AccountInfo) (v : T)
    (hlive : ¬(info.owner = systemProgramId ∧ info.lamports = 0))
    (hmb : info.mutBorrow = false)
    (hdec : c.tryDeserialize info.data = .ok v) :
    OrphanAccount.tryFrom c info = .ok (OrphanAccount.new info v) ∧
    (∀ (pid1 pid2 : Pubkey) (accts : List AccountInfo) (ix : List Nat),
      OrphanAccount.tryAccounts c pid1 accts ix =
        OrphanAccount.tryAccounts c pid2 accts ix) ∧
    (∀ pid, info.owner ≠ pid →
      OrphanAccount.exit c (OrphanAccount.new info v) pid = .ok info) := by
  refine ⟨?_, ?_, ?_⟩
  · unfold OrphanAccount.tryFrom AccountInfo.tryBorrowData
    rw [if_neg hlive]
    simp [hmb, hdec]
  · intro pid1 pid2 accts ix
    cases accts <;> rfl
  · intro pid hpid
    exact exit_of_owner_ne c (OrphanAccount.new info v) pid hpid

/-- C10 witness: `bufA` is owned by domain 5, yet construction for a program
of any identity succeeds, the program id is ignored, and an exit under
domain 99 skips write-back. -/
theorem no_ownership_check_on_construction_witness :
    OrphanAccount.tryFrom myCodec bufA = .ok (OrphanAccount.new bufA recA) ∧
    (∀ (pid1 pid2 : Pubkey) (accts : List AccountInfo) (ix : List Nat),
      OrphanAccount.tryAccounts myCodec pid1 accts ix =
        OrphanAccount.tryAccounts myCodec pid2 accts ix) ∧
    (∀ pid, bufA.owner ≠ pid →
      OrphanAccount.exit myCodec (OrphanAccount.new bufA recA) pid =
        .ok bufA) :=
  no_ownership_check_on_construction myCodec bufA recA (by decide) rfl rfl

end OrphanSpec
